import Mathlib

/-
Shallow embedding of the ps-app refresh scheduler and cache store
(src/config.py, src/scraper.py, src/cache_manager.py, src/app.py).

Machine reals (Python floats) are modelled as rationals; Python dicts keyed
by strings are modelled as association lists with Python's update semantics;
raising an exception is modelled as Except.error; fields that may be absent
from a feed dict (or present but not parseable) are modelled as Option.
-/

namespace PSApp

/-- Python substring test `sub in s` on character lists. -/
def listContainsSub (s sub : List Char) : Bool :=
  s.tails.any (fun t => sub.isPrefixOf t)

/-- Python substring test `sub in s` for strings. -/
def strContains (s sub : String) : Bool :=
  listContainsSub s.data sub.data

/-- config.py AppConfig.MIN_REMAINING_TIME default (seconds). -/
def MIN_REMAINING_TIME : ℚ := 180

/-- config.py AppConfig.MAX_REMAINING_TIME default (seconds). -/
def MAX_REMAINING_TIME : ℚ := 7200

/-- config.py AppConfig.UPDATE_INTERVAL default (seconds). -/
def UPDATE_INTERVAL : Nat := 120

/-- config.py AppConfig.RETRY_ATTEMPTS default. -/
def RETRY_ATTEMPTS : Nat := 3

/-- config.py API_ENDPOINTS, in source order. -/
def API_ENDPOINTS : List (String × String) :=
  [("NYC", "https://nycpokemap.com/pokestop.php"),
   ("Sydney", "https://sydneypogomap.com/pokestop.php"),
   ("London", "https://londonpogomap.com/pokestop.php"),
   ("Singapore", "https://sgpokemap.com/pokestop.php"),
   ("Vancouver", "https://vanpokemap.com/pokestop.php")]

/-- One entry of config.py POKESTOP_TYPES. -/
structure TypeInfo where
  ids : List Int
  gender : List (Int × String)
  display : String
  button_label : String
deriving DecidableEq

/-- config.py POKESTOP_TYPES (category catalog). -/
def POKESTOP_TYPES : List (String × TypeInfo) :=
  [("gruntmale", ⟨[4], [(4, "Male")], "Grunt", "Grunt (Male)"⟩),
   ("gruntfemale", ⟨[5], [(5, "Female")], "Grunt", "Grunt (Female)"⟩),
   ("bug", ⟨[6, 7], [(7, "Male"), (6, "Female")], "Bug", "Bug"⟩),
   ("dark", ⟨[10, 11], [(11, "Male"), (10, "Female")], "Dark", "Dark"⟩),
   ("dragon", ⟨[12, 13], [(13, "Male"), (12, "Female")], "Dragon", "Dragon"⟩),
   ("fairy", ⟨[14, 15], [(15, "Male"), (14, "Female")], "Fairy", "Fairy"⟩),
   ("fighting", ⟨[16, 17], [(17, "Male"), (16, "Female")], "Fighting", "Fighting"⟩),
   ("fire", ⟨[18, 19], [(19, "Male"), (18, "Female")], "Fire", "Fire"⟩),
   ("flying", ⟨[20, 21], [(21, "Male"), (20, "Female")], "Flying", "Flying"⟩),
   ("grass", ⟨[22, 23], [(23, "Male"), (22, "Female")], "Grass", "Grass"⟩),
   ("ground", ⟨[24, 25], [(25, "Male"), (24, "Female")], "Ground", "Ground"⟩),
   ("ice", ⟨[26, 27], [(27, "Male"), (26, "Female")], "Ice", "Ice"⟩),
   ("metal", ⟨[28, 29], [(29, "Male"), (28, "Female")], "Metal", "Metal"⟩),
   ("normal", ⟨[30, 31], [(31, "Male"), (30, "Female")], "Normal", "Normal"⟩),
   ("poison", ⟨[32, 33], [(33, "Male"), (32, "Female")], "Poison", "Poison"⟩),
   ("psychic", ⟨[34, 35], [(35, "Male"), (34, "Female")], "Psychic", "Psychic"⟩),
   ("rock", ⟨[36, 37], [(37, "Male"), (36, "Female")], "Rock", "Rock"⟩),
   ("waterfemale", ⟨[38], [(38, "Female")], "Water", "Water (Female)"⟩),
   ("watermale", ⟨[39], [(39, "Male")], "Water", "Water (Male)"⟩),
   ("electric", ⟨[48, 49], [(49, "Male"), (48, "Female")], "Electric", "Electric"⟩),
   ("ghost", ⟨[47, 48], [(47, "Male"), (48, "Female")], "Ghost", "Ghost"⟩)]

/-- The identifier set of a catalog entry (type_info['ids']). -/
def ids_of (pokestop_type : String) : List Int :=
  ((POKESTOP_TYPES.lookup pokestop_type).map TypeInfo.ids).getD []

/-- A raw feed record (one element of data['invasions'] in scraper.py).
`none` in a numeric field means the key is absent or its value does not
convert with float(); `character := none` means the key is absent. -/
structure RawStop where
  lat : Option ℚ
  lng : Option ℚ
  invasion_end : Option ℚ
  character : Option Int
  grunt_dialogue : Option String
  stop_name : Option String
deriving DecidableEq

/-- scraper.py PokeStopScraper._validate_stop_data: required fields present,
coordinates in range, invasion_end within [now, now + MAX_REMAINING_TIME]. -/
def validate_stop_data (s : RawStop) (current_time : ℚ) : Bool :=
  match s.lat, s.lng, s.invasion_end, s.character with
  | some la, some ln, some ie, some _ =>
    decide (-90 ≤ la) && decide (la ≤ 90) &&
    decide (-180 ≤ ln) && decide (ln ≤ 180) &&
    decide (current_time ≤ ie) && decide (ie ≤ current_time + MAX_REMAINING_TIME)
  | _, _, _, _ => false

/-- remaining_time = stop['invasion_end'] - (current_time - time_offset)
(scraper.py lines 155 and 254). -/
def remainingTime (s : RawStop) (current_time time_offset : ℚ) : ℚ :=
  s.invasion_end.getD 0 - (current_time - time_offset)

/-- scraper.py PokeStopScraper._is_grunt_match. -/
def is_grunt_match (pokestop_type d : String) : Bool :=
  pokestop_type.startsWith ("grunt") && strContains d ("grunt")

/-- The special_patterns dict inside _is_type_dialogue_match. -/
def special_patterns (pokestop_type : String) : Option (List String) :=
  if pokestop_type = "ghost" then some ["ke...ke...", "ghost"]
  else if pokestop_type = "psychic" then some ["psychic", "mind", "telekinesis"]
  else if pokestop_type = "fighting" then some ["muscle", "fighting", "combat"]
  else none

/-- scraper.py PokeStopScraper._is_type_dialogue_match. -/
def is_type_dialogue_match (pokestop_type d : String) : Bool :=
  if pokestop_type.startsWith ("grunt") then false
  else if pokestop_type == "waterfemale" || pokestop_type == "watermale" then
    strContains d ("water")
  else
    match special_patterns pokestop_type with
    | some pats => pats.any (fun p => strContains d p)
    | none => strContains d pokestop_type.toLower

/-- The electric_keywords list in _is_electric_match. -/
def electric_keywords : List String :=
  ["shock", "electric", "volt", "charge", "zap", "thunder"]

/-- scraper.py PokeStopScraper._is_electric_match. -/
def is_electric_match (pokestop_type : String) (character_id : Option Int) (d : String) : Bool :=
  if pokestop_type == "electric" && (character_id == some 48 || character_id == some 49) then
    electric_keywords.any (fun k => strContains d k)
  else false

/-- scraper.py PokeStopScraper._is_valid_stop.  The source's early returns
(validation, then the time window, then the match disjunction) are written
as one Boolean conjunction; `d` is stop.get('grunt_dialogue','').lower(). -/
def is_valid_stop (pokestop_type : String) (character_ids : List Int) (s : RawStop)
    (current_time time_offset : ℚ) : Bool :=
  validate_stop_data s current_time &&
  (decide (MIN_REMAINING_TIME < remainingTime s current_time time_offset) &&
   decide (remainingTime s current_time time_offset < MAX_REMAINING_TIME)) &&
  (let d := (s.grunt_dialogue.getD ("")).toLower
   (match s.character with
    | some c => character_ids.contains c
    | none => false) ||
   is_grunt_match pokestop_type d ||
   is_type_dialogue_match pokestop_type d ||
   is_electric_match pokestop_type s.character d)

/-- A normalized cache-resident stop (the dict built by _create_stop_data;
the scraped_at and encounter fields carry no logic and are omitted). -/
structure Stop where
  lat : ℚ
  lng : ℚ
  stop_name : String
  remaining_time : ℚ
  character : Option Int
  display_type : String
  gender : String
  grunt_dialogue : String
  location : String
deriving DecidableEq

/-- gender_map.get(character_id, 'Unknown'). -/
def lookupGender (gender_map : List (Int × String)) (character_id : Option Int) : String :=
  match character_id with
  | some i => (gender_map.lookup i).getD ("Unknown")
  | none => "Unknown"

/-- scraper.py PokeStopScraper._create_stop_data. -/
def create_stop_data (display : String) (gender_map : List (Int × String)) (s : RawStop)
    (current_time time_offset : ℚ) (location : String) : Stop :=
  { lat := s.lat.getD 0
    lng := s.lng.getD 0
    stop_name := s.stop_name.getD ("Unnamed PokeStop (" ++ location ++ ")")
    remaining_time := max 0 (remainingTime s current_time time_offset)
    character := s.character
    display_type := display
    gender := lookupGender gender_map s.character
    grunt_dialogue := s.grunt_dialogue.getD ("")
    location := location }

/-- scraper.py retry_on_failure, attempt loop: `f i` is the outcome of the
i-th call of the wrapped function (Except.error = the call raised); the
fuel argument counts the attempts still allowed after the current one.
After the last failed attempt the last exception is re-raised. -/
def retryAux {α : Type} (f : Nat → Except String α) (i : Nat) : Nat → Except String α
  | 0 => f i
  | n + 1 =>
    match f i with
    | Except.ok a => Except.ok a
    | Except.error _ => retryAux f (i + 1) n

/-- retry_on_failure with max_retries attempts (max_retries ≥ 1 in config). -/
def retry_on_failure {α : Type} (f : Nat → Except String α) (max_retries : Nat) :
    Except String α :=
  retryAux f 0 (max_retries - 1)

/-- Number of calls of the wrapped function that the retry loop performs. -/
def retryCount {α : Type} (f : Nat → Except String α) (i : Nat) : Nat → Nat
  | 0 => 1
  | n + 1 =>
    match f i with
    | Except.ok _ => 1
    | Except.error _ => 1 + retryCount f (i + 1) n

/-- Attempts performed by retry_on_failure with max_retries allowed. -/
def retry_attempts_used {α : Type} (f : Nat → Except String α) (max_retries : Nat) : Nat :=
  retryCount f 0 (max_retries - 1)

/-- scraper.py ParallelDataFetcher.fetch_all_locations.  `results loc` is the
outcome of scraper.fetch_location_data for that location (Except.error = the
future raised); a failed location is recorded as an empty list. -/
def fetch_all_locations (results : String → Except String (List Stop)) :
    List (String × List Stop) :=
  API_ENDPOINTS.map (fun p =>
    (p.1, match results p.1 with
          | Except.ok stops => stops
          | Except.error _ => []))

/-- The value stored under the 'stops' key of a cache payload: either a
per-location mapping (a dict) or some non-dict value. -/
inductive StopsVal
  | dict (entries : List (String × List Stop))
  | nondict
deriving DecidableEq

/-- A cache payload dict as handled by cache_manager.py: the 'stops' and
'last_updated' keys may be absent (none); cache_metadata is reduced to the
write_time string, the only metadata field with any role here. -/
structure CacheData where
  stops : Option StopsVal
  last_updated : Option String
  cache_metadata : Option String
deriving DecidableEq

/-- The mutable state of RenderCacheManager: cache_memory and
last_fetch_times, both Python dicts keyed by the category string; times are
rational seconds. -/
structure CacheState where
  cache_memory : List (String × CacheData)
  last_fetch_times : List (String × ℚ)
deriving DecidableEq

/-- Python dict assignment d[k] = v on an association list. -/
def assocSet {β : Type} (l : List (String × β)) (k : String) (v : β) :
    List (String × β) :=
  if l.any (fun p => p.1 == k) then
    l.map (fun p => if p.1 == k then (k, v) else p)
  else l ++ [(k, v)]

/-- cache_manager.py RenderCacheManager._get_empty_cache; `nowStr` is
datetime.now().strftime('%Y-%m-%d %H:%M:%S'). -/
def get_empty_cache (nowStr : String) : CacheData :=
  { stops := some (StopsVal.dict (API_ENDPOINTS.map (fun p => (p.1, ([] : List Stop)))))
    last_updated := some nowStr
    cache_metadata := none }

/-- The file-cache fallback tail of read_cache (lines 59-75): `file` is the
durable copy (none = no file, unreadable file, or invalid JSON). -/
def read_cache_file_fallback (st : CacheState) (pokestop_type : String)
    (file : Option CacheData) (now : ℚ) (nowStr : String) : CacheData × CacheState :=
  match file with
  | some data =>
    (data,
     { cache_memory := assocSet st.cache_memory pokestop_type data
       last_fetch_times := assocSet st.last_fetch_times pokestop_type now })
  | none => (get_empty_cache nowStr, st)

/-- cache_manager.py RenderCacheManager.read_cache.  An in-memory entry is
served only while its age is under 5 minutes (300 s); a missing
last_fetch_times entry means datetime.min, i.e. never fresh. -/
def read_cache (st : CacheState) (pokestop_type : String) (file : Option CacheData)
    (now : ℚ) (nowStr : String) : CacheData × CacheState :=
  match st.cache_memory.lookup pokestop_type with
  | some data =>
    let fresh : Bool :=
      match st.last_fetch_times.lookup pokestop_type with
      | some t => decide (now - t < 300)
      | none => false
    if fresh then (data, st)
    else read_cache_file_fallback st pokestop_type file now nowStr
  | none => read_cache_file_fallback st pokestop_type file now nowStr

/-- cache_manager.py RenderCacheManager._validate_cache_data: both required
keys present and data['stops'] a dict (the missing-locations check only
logs). -/
def validate_cache_data (data : CacheData) : Bool :=
  (data.stops.isSome && data.last_updated.isSome) &&
  (match data.stops with
   | some (StopsVal.dict _) => true
   | _ => false)

/-- cache_manager.py RenderCacheManager.write_cache.  On invalid data it
returns False before touching any state; otherwise it stamps the metadata,
swaps the in-memory entry and last-fetch time, and reports True (the
best-effort file write changes no tracked state and cannot fail the call). -/
def write_cache (st : CacheState) (pokestop_type : String) (data : CacheData)
    (now : ℚ) (nowStr : String) : Bool × CacheState :=
  if validate_cache_data data then
    let data' := { data with cache_metadata := some nowStr }
    (true,
     { cache_memory := assocSet st.cache_memory pokestop_type data'
       last_fetch_times := assocSet st.last_fetch_times pokestop_type now })
  else (false, st)

/-- One iteration of app.py update_cache_worker (current branch): fetch all
locations, assemble the cache payload, write it, then sleep
config.UPDATE_INTERVAL seconds.  The returned Nat is the sleep duration. -/
def update_cache_worker_cycle (st : CacheState) (pokestop_type : String)
    (results : String → Except String (List Stop)) (now : ℚ) (nowStr : String) :
    (Bool × CacheState) × Nat :=
  let stops_by_location := fetch_all_locations results
  let cache_data : CacheData :=
    { stops := some (StopsVal.dict stops_by_location)
      last_updated := some nowStr
      cache_metadata := none }
  (write_cache st pokestop_type cache_data now nowStr, UPDATE_INTERVAL)

/-- A stored stop dict as seen by cache_manager.py deduplicate_stops: the
'lat'/'lng' keys may be absent or non-numeric (outer none), the 'character'
key may be absent (outer none) or hold None (inner none); `tag` stands for
the remaining dict fields, so that distinct records can share a key. -/
structure PyStop where
  lat : Option ℚ
  lng : Option ℚ
  character : Option (Option Int)
  tag : Nat
deriving DecidableEq

/-- Python round-half-to-even to an integer (modelling round(x*10^6)). -/
def roundHalfEven (q : ℚ) : ℤ :=
  if q - (Int.floor q : ℚ) = 1 / 2 then
    (if Int.floor q % 2 = 0 then Int.floor q else Int.floor q + 1)
  else round q

/-- round(float(x), 6) in deduplicate_stops. -/
def round6 (q : ℚ) : ℚ :=
  (roundHalfEven (q * 1000000) : ℚ) / 1000000

/-- The identifier tuple built in deduplicate_stops, none when building it
raises KeyError/ValueError/TypeError. -/
def stopKey (s : PyStop) : Option (ℚ × ℚ × Option Int) :=
  match s.lat, s.lng, s.character with
  | some la, some ln, some c => some (round6 la, round6 ln, c)
  | _, _, _ => none

/-- The loop of cache_manager.py deduplicate_stops: `seen` is the set of
identifiers already kept; records whose identifier cannot be built are
skipped. -/
def dedupAux : List (ℚ × ℚ × Option Int) → List PyStop → List PyStop
  | _, [] => []
  | seen, s :: rest =>
    match stopKey s with
    | none => dedupAux seen rest
    | some k =>
      if k ∈ seen then dedupAux seen rest
      else s :: dedupAux (k :: seen) rest

/-- cache_manager.py deduplicate_stops. -/
def deduplicate_stops (stops : List PyStop) : List PyStop :=
  dedupAux [] stops

/-- The empty cache-manager state (fresh RenderCacheManager). -/
def emptyState : CacheState :=
  { cache_memory := [], last_fetch_times := [] }

/-- A raw record with identifier 48 and an electric keyword in its hint. -/
def c1VoltStop : RawStop :=
  { lat := some 40, lng := some (-74), invasion_end := some 1001000,
    character := some 48, grunt_dialogue := some ("Get ready for a volt of a jolt!"),
    stop_name := none }

/-- A raw record with identifier 48 and the ghost onomatopoeia in its hint. -/
def c1KekeStop : RawStop :=
  { lat := some 40, lng := some (-74), invasion_end := some 1001000,
    character := some 48, grunt_dialogue := some ("ke...ke..."),
    stop_name := none }

/-- A matching ghost raw record used to exercise the time-window theorem. -/
def c2GhostStop : RawStop :=
  { lat := some 51, lng := some 0, invasion_end := some 1002000,
    character := some 47, grunt_dialogue := some ("ke...ke..."),
    stop_name := some ("Test Stop") }

/-- The constantly failing fetch attempt of a malformed-payload upstream. -/
def c6Attempt : Nat → Except String (List Stop) :=
  fun _ => Except.error ("Expecting value: line 1 column 1 (char 0)")

/-- An aged in-memory cache payload. -/
def c8StaleData : CacheData :=
  { stops := some (StopsVal.dict [("NYC", []), ("Sydney", []), ("London", []),
      ("Singapore", []), ("Vancouver", [])])
    last_updated := some ("2026-01-01 00:00:00")
    cache_metadata := some ("2026-01-01 00:00:00") }

/-- A cache-manager state holding only the aged entry for 'fairy', fetched at
time 0. -/
def c8StaleState : CacheState :=
  { cache_memory := [("fairy", c8StaleData)], last_fetch_times := [("fairy", 0)] }

/-- Stored stop dicts for the deduplication witness: c10A and c10A2 share an
identifier, c10B differs, c10Bad lacks a parseable latitude. -/
def c10A : PyStop := { lat := some 10, lng := some 20, character := some (some 48), tag := 0 }

/-- A stored stop dict whose identifier differs from c10A's. -/
def c10B : PyStop := { lat := some 11, lng := some 20, character := some (some 48), tag := 1 }

/-- A stored stop dict sharing c10A's identifier but not its payload. -/
def c10A2 : PyStop := { lat := some 10, lng := some 20, character := some (some 48), tag := 2 }

/-- A stored stop dict with an unparseable latitude. -/
def c10Bad : PyStop := { lat := none, lng := some 20, character := some (some 48), tag := 3 }

/-- Looking up a key of `l` in the list that tabulates `f` over the keys of
`l` yields `f` of that key. -/
theorem lookup_map_eval {β γ : Type} (l : List (String × β)) (f : String → γ)
    (loc : String) (h : loc ∈ l.map Prod.fst) :
    (l.map (fun p => (p.1, f p.1))).lookup loc = some (f loc) := by
  induction l with
  | nil => simp at h
  | cons a t ih =>
    by_cases hbeq : loc == a.1
    · have ha : loc = a.1 := eq_of_beq hbeq
      simp [List.lookup, hbeq, ha]
    · rw [List.map_cons] at h
      rcases List.mem_cons.mp h with h1 | h1
      · exact absurd (beq_iff_eq.mpr h1) hbeq
      · simp [List.lookup, hbeq, ih h1]

/-- A record whose identifier lies in the category's identifier set is
accepted by _is_valid_stop as soon as validation and the time window pass,
whatever its hint text. -/
theorem is_valid_stop_of_id (pokestop_type : String) (character_ids : List Int)
    (s : RawStop) (ct off : ℚ) (c : Int)
    (hv : validate_stop_data s ct = true)
    (h1 : MIN_REMAINING_TIME < remainingTime s ct off)
    (h2 : remainingTime s ct off < MAX_REMAINING_TIME)
    (hc : s.character = some c)
    (hin : character_ids.contains c = true) :
    is_valid_stop pokestop_type character_ids s ct off = true := by
  have hmem : c ∈ character_ids := by simpa using hin
  simp only [is_valid_stop, hv, hc, decide_eq_true h1, decide_eq_true h2, Bool.true_and]
  simp [hmem]

/-- The c1VoltStop record passes field validation at time 1000000. -/
theorem c1Volt_valid : validate_stop_data c1VoltStop 1000000 = true := by
  norm_num [validate_stop_data, c1VoltStop, MAX_REMAINING_TIME]

/-- The c1VoltStop record is inside the open time window. -/
theorem c1Volt_window :
    MIN_REMAINING_TIME < remainingTime c1VoltStop 1000000 0 ∧
    remainingTime c1VoltStop 1000000 0 < MAX_REMAINING_TIME := by
  norm_num [remainingTime, c1VoltStop, MIN_REMAINING_TIME, MAX_REMAINING_TIME]

/-- The c1KekeStop record passes field validation at time 1000000. -/
theorem c1Keke_valid : validate_stop_data c1KekeStop 1000000 = true := by
  norm_num [validate_stop_data, c1KekeStop, MAX_REMAINING_TIME]

/-- The c1KekeStop record is inside the open time window. -/
theorem c1Keke_window :
    MIN_REMAINING_TIME < remainingTime c1KekeStop 1000000 0 ∧
    remainingTime c1KekeStop 1000000 0 < MAX_REMAINING_TIME := by
  norm_num [remainingTime, c1KekeStop, MIN_REMAINING_TIME, MAX_REMAINING_TIME]

/-- The c2GhostStop record passes field validation at time 1000000. -/
theorem c2Ghost_valid : validate_stop_data c2GhostStop 1000000 = true := by
  norm_num [validate_stop_data, c2GhostStop, MAX_REMAINING_TIME]

/-- The c2GhostStop record is inside the open time window. -/
theorem c2Ghost_window :
    MIN_REMAINING_TIME < remainingTime c2GhostStop 1000000 0 ∧
    remainingTime c2GhostStop 1000000 0 < MAX_REMAINING_TIME := by
  norm_num [remainingTime, c2GhostStop, MIN_REMAINING_TIME, MAX_REMAINING_TIME]

/-- Claim C1, as stated, is false on the code: _is_valid_stop accepts a
record as soon as its identifier lies in the category's identifier set, so a
record with identifier 48 and hint text 'volt...' is accepted by the ghost
category too, and a record with identifier 48 and the ghost onomatopoeia is
accepted by the electric category too. -/
theorem C1_counterexample :
    is_valid_stop ("ghost") (ids_of ("ghost")) c1VoltStop 1000000 0 = true ∧
    is_valid_stop ("electric") (ids_of ("electric")) c1KekeStop 1000000 0 = true :=
  ⟨is_valid_stop_of_id ("ghost") (ids_of ("ghost")) c1VoltStop 1000000 0 48
      c1Volt_valid c1Volt_window.1 c1Volt_window.2 rfl (by decide),
   is_valid_stop_of_id ("electric") (ids_of ("electric")) c1KekeStop 1000000 0 48
      c1Keke_valid c1Keke_window.1 c1Keke_window.2 rfl (by decide)⟩

/-- Claim C1 (amended): a raw record with identifier 48 that passes field
validation and the time window is accepted by both the ghost-like and the
electric-like categories, whatever its hint text: identifier membership
alone decides, and the electric keyword clause only ever adds matches. -/
theorem C1_amended_thm (s : RawStop) (ct off : ℚ)
    (hc : s.character = some 48)
    (hv : validate_stop_data s ct = true)
    (h1 : MIN_REMAINING_TIME < remainingTime s ct off)
    (h2 : remainingTime s ct off < MAX_REMAINING_TIME) :
    is_valid_stop ("ghost") (ids_of ("ghost")) s ct off = true ∧
    is_valid_stop ("electric") (ids_of ("electric")) s ct off = true :=
  ⟨is_valid_stop_of_id ("ghost") (ids_of ("ghost")) s ct off 48 hv h1 h2 hc (by decide),
   is_valid_stop_of_id ("electric") (ids_of ("electric")) s ct off 48 hv h1 h2 hc (by decide)⟩

/-- Instantiation of the amended C1 theorem on the 'volt' record. -/
theorem C1_amended_witness :
    is_valid_stop ("ghost") (ids_of ("ghost")) c1VoltStop 1000000 0 = true ∧
    is_valid_stop ("electric") (ids_of ("electric")) c1VoltStop 1000000 0 = true :=
  C1_amended_thm c1VoltStop 1000000 0 rfl c1Volt_valid c1Volt_window.1 c1Volt_window.2

/-- Claim C2: every raw record accepted by _is_valid_stop yields a Stop whose
remaining time at creation lies strictly between 180 and 7200 seconds, and a
record whose remaining time falls outside this open interval is rejected no
matter how it matches. -/
theorem C2_thm (pokestop_type : String) (character_ids : List Int) (display : String)
    (gender_map : List (Int × String)) (s : RawStop) (ct off : ℚ) (loc : String) :
    (is_valid_stop pokestop_type character_ids s ct off = true →
      MIN_REMAINING_TIME < (create_stop_data display gender_map s ct off loc).remaining_time ∧
      (create_stop_data display gender_map s ct off loc).remaining_time < MAX_REMAINING_TIME) ∧
    (¬ (MIN_REMAINING_TIME < remainingTime s ct off ∧
        remainingTime s ct off < MAX_REMAINING_TIME) →
      is_valid_stop pokestop_type character_ids s ct off = false) := by
  constructor
  · intro h
    have hw : MIN_REMAINING_TIME < remainingTime s ct off ∧
        remainingTime s ct off < MAX_REMAINING_TIME := by
      simp only [is_valid_stop, Bool.and_eq_true, decide_eq_true_eq] at h
      exact ⟨h.1.2.1, h.1.2.2⟩
    have hpos : (0 : ℚ) ≤ remainingTime s ct off :=
      le_of_lt (lt_trans (by norm_num [MIN_REMAINING_TIME]) hw.1)
    have hmax : (create_stop_data display gender_map s ct off loc).remaining_time
        = max 0 (remainingTime s ct off) := rfl
    rw [hmax, max_eq_right hpos]
    exact hw
  · intro h
    rcases not_and_or.mp h with h1 | h1 <;>
      simp [is_valid_stop, decide_eq_false h1]

/-- Instantiation of the C2 theorem on a concrete matching ghost record. -/
theorem C2_thm_witness :
    MIN_REMAINING_TIME <
      (create_stop_data ("Ghost") [(47, "Male"), (48, "Female")] c2GhostStop
        1000000 0 ("NYC")).remaining_time ∧
    (create_stop_data ("Ghost") [(47, "Male"), (48, "Female")] c2GhostStop
        1000000 0 ("NYC")).remaining_time < MAX_REMAINING_TIME :=
  (C2_thm ("ghost") (ids_of ("ghost")) ("Ghost") [(47, "Male"), (48, "Female")]
    c2GhostStop 1000000 0 ("NYC")).1
    (is_valid_stop_of_id ("ghost") (ids_of ("ghost")) c2GhostStop 1000000 0 47
      c2Ghost_valid c2Ghost_window.1 c2Ghost_window.2 rfl (by decide))

/-- Claim C3: the per-location mapping assembled by fetch_all_locations has
every configured Location as a key, and a location whose fetch failed is
bound to the empty list. -/
theorem C3_thm (results : String → Except String (List Stop)) (loc : String)
    (h : loc ∈ API_ENDPOINTS.map Prod.fst) :
    (fetch_all_locations results).lookup loc =
      some (match results loc with
            | Except.ok stops => stops
            | Except.error _ => []) := by
  have hl := lookup_map_eval API_ENDPOINTS
    (fun l => match results l with
              | Except.ok stops => stops
              | Except.error _ => []) loc h
  exact hl

/-- Instantiation of the C3 theorem: with every fetch failing, Sydney is
still a key and is bound to the empty list. -/
theorem C3_thm_witness :
    (fetch_all_locations (fun _ => Except.error ("boom"))).lookup ("Sydney") = some [] :=
  C3_thm (fun _ => Except.error ("boom")) ("Sydney") (by decide)

/-- Claim C4, as stated, is false on the code: on a cold read with no durable
copy, _get_empty_cache stamps last_updated with the current formatted time,
not with the string 'Unknown'. -/
theorem C4_counterexample :
    (read_cache emptyState ("fairy") none 0 ("2026-01-01 12:00:00")).1.last_updated
      = some ("2026-01-01 12:00:00") ∧
    ¬ ((read_cache emptyState ("fairy") none 0 ("2026-01-01 12:00:00")).1.last_updated
      = some ("Unknown")) := by
  decide

/-- Claim C4 (amended): on a category with no in-memory entry and no readable
durable copy, read_cache returns the empty Snapshot template whose
last_updated is the current formatted time and in which every configured
Location is mapped to an empty list, rather than failing. -/
theorem C4_amended_thm (st : CacheState) (pokestop_type : String) (now : ℚ)
    (nowStr : String)
    (hmem : st.cache_memory.lookup pokestop_type = none) :
    (read_cache st pokestop_type none now nowStr).1 = get_empty_cache nowStr ∧
    (get_empty_cache nowStr).last_updated = some nowStr ∧
    ∀ loc, loc ∈ API_ENDPOINTS.map Prod.fst →
      ∃ entries, (get_empty_cache nowStr).stops = some (StopsVal.dict entries) ∧
        entries.lookup loc = some [] := by
  refine ⟨?_, rfl, fun loc hloc => ?_⟩
  · simp [read_cache, hmem, read_cache_file_fallback]
  · exact ⟨_, rfl, lookup_map_eval API_ENDPOINTS (fun _ => []) loc hloc⟩

/-- Instantiation of the amended C4 theorem on a fresh manager state. -/
theorem C4_amended_witness :
    (read_cache emptyState ("ghost") none 5 ("2026-02-02 08:00:00")).1
      = get_empty_cache ("2026-02-02 08:00:00") :=
  (C4_amended_thm emptyState ("ghost") 5 ("2026-02-02 08:00:00") rfl).1

/-- Claim C5, as stated, is false on the code: after all retry attempts fail,
the retry wrapper re-raises the last exception instead of returning an empty
list, so fetch_location_data does raise past the fetch boundary. -/
theorem C5_counterexample :
    retry_on_failure
      (fun _ => (Except.error ("connection refused") : Except String (List Stop)))
      RETRY_ATTEMPTS = Except.error ("connection refused") ∧
    ¬ (retry_on_failure
      (fun _ => (Except.error ("connection refused") : Except String (List Stop)))
      RETRY_ATTEMPTS = Except.ok []) := by
  refine ⟨rfl, fun h => ?_⟩
  have h1 : (Except.error ("connection refused") : Except String (List Stop))
      = Except.ok [] := h
  exact Except.noConfusion h1

/-- Claim C5 (amended): when every attempt for a location fails, the retried
fetch raises the last exception to its caller; the empty list is substituted
one level up, by the Orchestrator, which binds the failed location to []. -/
theorem C5_amended_thm (e : Nat → String) (f : Nat → Except String (List Stop))
    (hf : ∀ i, f i = Except.error (e i)) :
    retry_on_failure f RETRY_ATTEMPTS = Except.error (e 2) ∧
    ∀ loc, loc ∈ API_ENDPOINTS.map Prod.fst →
      (fetch_all_locations (fun _ => retry_on_failure f RETRY_ATTEMPTS)).lookup loc
        = some [] := by
  have hr : retry_on_failure f RETRY_ATTEMPTS = Except.error (e 2) := by
    show retryAux f 0 2 = Except.error (e 2)
    simp only [retryAux, hf]
  refine ⟨hr, fun loc hloc => ?_⟩
  have hl := lookup_map_eval API_ENDPOINTS
    (fun l => match (fun _ => retry_on_failure f RETRY_ATTEMPTS) l with
              | Except.ok stops => stops
              | Except.error _ => []) loc hloc
  rw [show fetch_all_locations (fun _ => retry_on_failure f RETRY_ATTEMPTS)
      = API_ENDPOINTS.map (fun p => (p.1,
          match retry_on_failure f RETRY_ATTEMPTS with
          | Except.ok stops => stops
          | Except.error _ => [])) from rfl]
  rw [hr] at hl ⊢
  simpa using hl

/-- Instantiation of the amended C5 theorem on a constant timeout error. -/
theorem C5_amended_witness :
    retry_on_failure (fun _ => (Except.error ("timeout") : Except String (List Stop)))
      RETRY_ATTEMPTS = Except.error ("timeout") :=
  (C5_amended_thm (fun _ => ("timeout"))
    (fun _ => (Except.error ("timeout") : Except String (List Stop)))
    (fun _ => rfl)).1

/-- Claim C6, as stated, is false on the code: the retry wrapper catches
every exception, so a malformed-payload failure on the first attempt is
retried (all 3 attempts run), and the final result is the raised error, not
an empty list. -/
theorem C6_counterexample :
    retry_attempts_used c6Attempt RETRY_ATTEMPTS = 3 ∧
    ¬ (retry_attempts_used c6Attempt RETRY_ATTEMPTS = 1) ∧
    ¬ (retry_on_failure c6Attempt RETRY_ATTEMPTS = Except.ok []) := by
  refine ⟨rfl, by decide, fun h => ?_⟩
  have h1 : (Except.error ("Expecting value: line 1 column 1 (char 0)")
      : Except String (List Stop)) = Except.ok [] := h
  exact Except.noConfusion h1

/-- Every retryCount is at least one call. -/
theorem one_le_retryCount {α : Type} (f : Nat → Except String α) (i n : Nat) :
    1 ≤ retryCount f i n := by
  cases n with
  | zero => simp [retryCount]
  | succ m =>
    simp only [retryCount]
    cases hfi : f i with
    | ok a => exact le_refl 1
    | error e => exact Nat.le_add_right 1 _

/-- Claim C6 (amended): a first-attempt failure of any kind, malformed
payload included, is retried (a second attempt is always issued), and a
persistently failing attempt is issued RETRY_ATTEMPTS times in total; no
failure kind short-circuits the retry loop. -/
theorem C6_amended_thm (f : Nat → Except String (List Stop)) (msg : String)
    (h : f 0 = Except.error msg) :
    2 ≤ retry_attempts_used f RETRY_ATTEMPTS ∧
    retry_attempts_used (fun _ => (Except.error msg : Except String (List Stop)))
      RETRY_ATTEMPTS = RETRY_ATTEMPTS := by
  constructor
  · show 2 ≤ retryCount f 0 2
    have hx : retryCount f 0 2 = 1 + retryCount f 1 1 := by
      simp only [retryCount, h]
    rw [hx]
    have h1 := one_le_retryCount f 1 1
    omega
  · rfl

/-- Instantiation of the amended C6 theorem on the malformed-payload error. -/
theorem C6_amended_witness :
    2 ≤ retry_attempts_used c6Attempt RETRY_ATTEMPTS :=
  (C6_amended_thm c6Attempt ("Expecting value: line 1 column 1 (char 0)") rfl).1

/-- Claim C7: a write whose payload lacks the per-location stops key, or
whose stops value is not a mapping, fails (returns false) and leaves the
in-memory cache and the last-fetch-time bookkeeping untouched. -/
theorem C7_thm (st : CacheState) (pokestop_type : String) (data : CacheData)
    (now : ℚ) (nowStr : String)
    (h : data.stops = none ∨ data.stops = some StopsVal.nondict) :
    (write_cache st pokestop_type data now nowStr).1 = false ∧
    (write_cache st pokestop_type data now nowStr).2 = st := by
  have hv : validate_cache_data data = false := by
    rcases h with h | h <;> simp [validate_cache_data, h]
  simp [write_cache, hv]

/-- Instantiation of the C7 theorem on a payload missing the stops key. -/
theorem C7_thm_witness :
    (write_cache emptyState ("fairy")
      ⟨none, some ("2026-01-01 00:00:00"), none⟩ 0 ("2026-01-01 00:00:00")).1 = false ∧
    (write_cache emptyState ("fairy")
      ⟨none, some ("2026-01-01 00:00:00"), none⟩ 0 ("2026-01-01 00:00:00")).2 = emptyState :=
  C7_thm emptyState ("fairy") ⟨none, some ("2026-01-01 00:00:00"), none⟩ 0
    ("2026-01-01 00:00:00") (Or.inl rfl)

/-- A fresh in-memory entry (age under 300 s) is served unchanged. -/
theorem read_cache_fresh (st : CacheState) (pokestop_type : String) (d : CacheData)
    (t now : ℚ) (file : Option CacheData) (nowStr : String)
    (hmem : st.cache_memory.lookup pokestop_type = some d)
    (hlft : st.last_fetch_times.lookup pokestop_type = some t)
    (hfresh : now - t < 300) :
    read_cache st pokestop_type file now nowStr = (d, st) := by
  simp [read_cache, hmem, hlft, hfresh]

/-- A stale in-memory entry with no readable file falls back to the empty
template. -/
theorem read_cache_stale_no_file (st : CacheState) (pokestop_type : String)
    (d : CacheData) (t now : ℚ) (nowStr : String)
    (hmem : st.cache_memory.lookup pokestop_type = some d)
    (hlft : st.last_fetch_times.lookup pokestop_type = some t)
    (hstale : ¬ (now - t < 300)) :
    read_cache st pokestop_type none now nowStr
      = (get_empty_cache nowStr, st) := by
  simp [read_cache, hmem, hlft, hstale, read_cache_file_fallback]

/-- Claim C8, as stated, is false on the code: an in-memory entry is served
only while younger than 5 minutes; at age 300 s with no readable file,
read_cache returns the empty template even though an in-memory entry
exists. -/
theorem C8_counterexample :
    c8StaleState.cache_memory.lookup ("fairy") = some c8StaleData ∧
    ¬ ((read_cache c8StaleState ("fairy") none 300 ("2026-01-01 00:05:00")).1
      = c8StaleData) := by
  refine ⟨rfl, fun h => ?_⟩
  have h1 : read_cache c8StaleState ("fairy") none 300 ("2026-01-01 00:05:00")
      = (get_empty_cache ("2026-01-01 00:05:00"), c8StaleState) :=
    read_cache_stale_no_file c8StaleState ("fairy") c8StaleData 0 300
      ("2026-01-01 00:05:00") rfl rfl (by norm_num)
  rw [h1] at h
  have h2 := congrArg CacheData.last_updated h
  simp [get_empty_cache, c8StaleData] at h2

/-- Claim C8 (amended): the in-memory snapshot is returned only while its age
is under 5 minutes (300 s); an older in-memory entry falls through to the
durable copy, and when that is unavailable the empty template is returned
even though the in-memory entry exists. -/
theorem C8_amended_thm (st : CacheState) (pokestop_type : String) (d : CacheData)
    (t now : ℚ) (file : Option CacheData) (nowStr : String)
    (hmem : st.cache_memory.lookup pokestop_type = some d)
    (hlft : st.last_fetch_times.lookup pokestop_type = some t) :
    (now - t < 300 → read_cache st pokestop_type file now nowStr = (d, st)) ∧
    (300 ≤ now - t → file = none →
      (read_cache st pokestop_type file now nowStr).1 = get_empty_cache nowStr) := by
  constructor
  · intro hfresh
    exact read_cache_fresh st pokestop_type d t now file nowStr hmem hlft hfresh
  · intro hstale hfile
    rw [hfile,
      read_cache_stale_no_file st pokestop_type d t now nowStr hmem hlft (not_lt.mpr hstale)]

/-- Instantiation of the amended C8 theorem on the aged 'fairy' entry. -/
theorem C8_amended_witness :
    (read_cache c8StaleState ("fairy") none 300 ("2026-01-01 00:05:00")).1
      = get_empty_cache ("2026-01-01 00:05:00") :=
  (C8_amended_thm c8StaleState ("fairy") c8StaleData 0 300 none
    ("2026-01-01 00:05:00") rfl rfl).2 (by norm_num) rfl

/-- Claim C9, as stated, is false on the code: update_cache_worker always
sleeps config.UPDATE_INTERVAL (120 s) between cycles; at a point where the
category was last accessed 301 s ago the next wait is still 120 s, not the
idle cadence of 600 s, and no last-access input even reaches the loop. -/
theorem C9_counterexample :
    (update_cache_worker_cycle emptyState ("fairy") (fun _ => Except.error ("down"))
      301 ("2026-01-01 00:00:00")).2 = 120 ∧
    ¬ ((update_cache_worker_cycle emptyState ("fairy") (fun _ => Except.error ("down"))
      301 ("2026-01-01 00:00:00")).2 = 600) := by
  exact ⟨rfl, by decide⟩

/-- Claim C9 (amended): the refresh loop waits the fixed configured interval
UPDATE_INTERVAL = 120 s after every cycle, for every state, category, fetch
outcome and clock value; no idle-cadence escalation exists. -/
theorem C9_amended_thm (st : CacheState) (pokestop_type : String)
    (results : String → Except String (List Stop)) (now : ℚ) (nowStr : String) :
    (update_cache_worker_cycle st pokestop_type results now nowStr).2 = UPDATE_INTERVAL ∧
    UPDATE_INTERVAL = 120 :=
  ⟨rfl, rfl⟩

/-- Every element kept by the deduplication loop has a buildable identifier
that was not previously seen. -/
theorem mem_dedupAux : ∀ (l : List PyStop) (seen : List (ℚ × ℚ × Option Int)) (s : PyStop),
    s ∈ dedupAux seen l → ∃ k, stopKey s = some k ∧ k ∉ seen := by
  intro l
  induction l with
  | nil => intro seen s h; simp [dedupAux] at h
  | cons a rest ih =>
    intro seen s h
    simp only [dedupAux] at h
    split at h
    · exact ih seen s h
    · rename_i ka hka
      by_cases hmem : ka ∈ seen
      · rw [if_pos hmem] at h
        exact ih seen s h
      · rw [if_neg hmem] at h
        rcases List.mem_cons.mp h with h1 | h1
        · subst h1
          exact ⟨ka, hka, hmem⟩
        · obtain ⟨k', hk', hnot⟩ := ih (ka :: seen) s h1
          exact ⟨k', hk', fun hs => hnot (List.mem_cons_of_mem ka hs)⟩

/-- The deduplication loop returns a sublist of its input. -/
theorem dedupAux_sublist : ∀ (l : List PyStop) (seen : List (ℚ × ℚ × Option Int)),
    List.Sublist (dedupAux seen l) l := by
  intro l
  induction l with
  | nil => intro seen; simp [dedupAux]
  | cons a rest ih =>
    intro seen
    simp only [dedupAux]
    split
    · exact List.Sublist.cons a (ih seen)
    · rename_i ka hka
      by_cases hmem : ka ∈ seen
      · rw [if_pos hmem]; exact List.Sublist.cons a (ih seen)
      · rw [if_neg hmem]; exact List.Sublist.cons₂ a (ih (ka :: seen))

/-- No two stops kept by the deduplication loop share an identifier. -/
theorem dedupAux_pairwise : ∀ (l : List PyStop) (seen : List (ℚ × ℚ × Option Int)),
    (dedupAux seen l).Pairwise (fun a b => stopKey a ≠ stopKey b) := by
  intro l
  induction l with
  | nil => intro seen; simp [dedupAux]
  | cons a rest ih =>
    intro seen
    simp only [dedupAux]
    split
    · exact ih seen
    · rename_i ka hka
      by_cases hmem : ka ∈ seen
      · rw [if_pos hmem]; exact ih seen
      · rw [if_neg hmem]
        refine List.Pairwise.cons ?_ (ih (ka :: seen))
        intro b hb
        obtain ⟨k', hk', hnot⟩ := mem_dedupAux rest (ka :: seen) b hb
        rw [hka, hk']
        intro hkk
        have hkk2 : ka = k' := Option.some_inj.mp hkk
        apply hnot
        rw [← hkk2]
        exact List.mem_cons_self ka seen

/-- The first record carrying a fresh identifier is kept by the loop. -/
theorem dedupAux_keeps_first : ∀ (l₁ : List PyStop) (s : PyStop) (l₂ : List PyStop)
    (seen : List (ℚ × ℚ × Option Int)),
    (stopKey s).isSome = true →
    (∀ k, stopKey s = some k → k ∉ seen) →
    (∀ t ∈ l₁, stopKey t ≠ stopKey s) →
    s ∈ dedupAux seen (l₁ ++ s :: l₂) := by
  intro l₁
  induction l₁ with
  | nil =>
    intro s l₂ seen hk hnotseen _
    obtain ⟨k, hks⟩ := Option.isSome_iff_exists.mp hk
    simp only [List.nil_append, dedupAux, hks]
    rw [if_neg (hnotseen k hks)]
    exact List.mem_cons_self s _
  | cons a t ih =>
    intro s l₂ seen hk hnotseen hfirst
    simp only [List.cons_append, dedupAux]
    split
    · exact ih s l₂ seen hk hnotseen (fun u hu => hfirst u (List.mem_cons_of_mem a hu))
    · rename_i ka hka
      by_cases hmem : ka ∈ seen
      · rw [if_pos hmem]
        exact ih s l₂ seen hk hnotseen (fun u hu => hfirst u (List.mem_cons_of_mem a hu))
      · rw [if_neg hmem]
        refine List.mem_cons_of_mem a
          (ih s l₂ (ka :: seen) hk ?_ (fun u hu => hfirst u (List.mem_cons_of_mem a hu)))
        intro k hks hmem2
        rcases List.mem_cons.mp hmem2 with h1 | h1
        · apply hfirst a (List.mem_cons_self a t)
          rw [hka, hks, h1]
        · exact hnotseen k hks h1

/-- A list of stops with pairwise distinct, buildable, unseen identifiers
passes through the deduplication loop unchanged. -/
theorem dedupAux_eq_self : ∀ (l : List PyStop) (seen : List (ℚ × ℚ × Option Int)),
    (∀ s ∈ l, ∀ k, stopKey s = some k → k ∉ seen) →
    (∀ s ∈ l, (stopKey s).isSome = true) →
    l.Pairwise (fun a b => stopKey a ≠ stopKey b) →
    dedupAux seen l = l := by
  intro l
  induction l with
  | nil => intro seen _ _ _; simp [dedupAux]
  | cons a rest ih =>
    intro seen hkeys hsome hpw
    obtain ⟨k, hka⟩ := Option.isSome_iff_exists.mp (hsome a (List.mem_cons_self a rest))
    simp only [dedupAux, hka]
    rw [if_neg (hkeys a (List.mem_cons_self a rest) k hka)]
    congr 1
    apply ih (k :: seen)
    · intro s hs k' hk' hmem2
      rcases List.mem_cons.mp hmem2 with h1 | h1
      · apply (List.pairwise_cons.mp hpw).1 s hs
        rw [hka, hk', h1]
      · exact hkeys s (List.mem_cons_of_mem a hs) k' hk' h1
    · intro s hs
      exact hsome s (List.mem_cons_of_mem a hs)
    · exact (List.pairwise_cons.mp hpw).2

/-- Claim C10: deduplicate_stops returns a subsequence of its input keeping
first occurrences in order, with no two kept stops sharing the rounded
(lat, lng, character) identifier; records whose identifier cannot be built
from parseable lat, lng and character fields are dropped; and the operation
is idempotent. -/
theorem C10_thm (l : List PyStop) :
    List.Sublist (deduplicate_stops l) l ∧
    (deduplicate_stops l).Pairwise (fun a b => stopKey a ≠ stopKey b) ∧
    (∀ s ∈ deduplicate_stops l, (stopKey s).isSome = true) ∧
    (∀ l₁ s l₂, l = l₁ ++ s :: l₂ → (stopKey s).isSome = true →
      (∀ t ∈ l₁, stopKey t ≠ stopKey s) → s ∈ deduplicate_stops l) ∧
    deduplicate_stops (deduplicate_stops l) = deduplicate_stops l := by
  refine ⟨dedupAux_sublist l [], dedupAux_pairwise l [], ?_, ?_, ?_⟩
  · intro s hs
    obtain ⟨k, hk, _⟩ := mem_dedupAux l [] s hs
    rw [hk]
    rfl
  · intro l₁ s l₂ hl hk hfirst
    rw [hl]
    exact dedupAux_keeps_first l₁ s l₂ [] hk (fun k _ => List.not_mem_nil k) hfirst
  · show dedupAux [] (deduplicate_stops l) = deduplicate_stops l
    refine dedupAux_eq_self (deduplicate_stops l) [] ?_ ?_ (dedupAux_pairwise l [])
    · intro s _ k _
      exact List.not_mem_nil k
    · intro s hs
      obtain ⟨k, hk, _⟩ := mem_dedupAux l [] s hs
      rw [hk]
      rfl

/-- Instantiation of the C10 theorem: the first of two records sharing an
identifier is kept. -/
theorem C10_thm_witness :
    c10A ∈ deduplicate_stops [c10A, c10Bad, c10B, c10A2] :=
  (C10_thm [c10A, c10Bad, c10B, c10A2]).2.2.2.1 [] c10A [c10Bad, c10B, c10A2]
    rfl rfl (by decide)

end PSApp
